import Mathlib

/-!
Verification of the Enterprise-Response-Executor repository
(src/response_executor.h, src/response_executor.c).

The embedding translates the C source into Lean definitions:

  - machine integers become Nat / Int (zones are a 32-bit mask; only bits
    0..31 are ever inspected by the code, via `target_zones & (1 << i)`);
  - the process-wide `subsystem_state` becomes an explicit state record
    threaded through the API functions;
  - the external subsystem controllers (physical access, network, services,
    surveillance, evacuation hardware, backups) and the libc `system` call
    are modelled as an environment record `controllers_t` of outcome
    functions.  The repository itself only ships stub bodies that always
    return 0 (`stub_controllers` below reproduces them); the handlers are
    parameterised over the environment so that their failure-aggregation
    logic can be stated for every combination of step outcomes;
  - each API function additionally returns the list of externally visible
    events it performs (controller calls, `system` invocations, lock
    acquire / release), in program order, so that call-counting and
    lock-discipline statements can be made;
  - wall-clock time (`time(NULL)`) is passed in as explicit Nat arguments.
-/

namespace ResponseExecutor

/-- The response_type_t enumeration of response_executor.h. -/
inductive response_type_t where
  | RESPONSE_LOCKDOWN
  | RESPONSE_NETWORK_ISOLATE
  | RESPONSE_SERVICE_FAILOVER
  | RESPONSE_EVACUATION
  | RESPONSE_BACKUP_ACTIVATE
  | RESPONSE_COMMS_PRIORITY
  | RESPONSE_PARTIAL_CONTAIN
  | RESPONSE_FULL_RECOVERY
  deriving DecidableEq

/-- The system_mode_t enumeration of response_executor.h (MODE_NORMAL = 0). -/
inductive system_mode_t where
  | MODE_NORMAL
  | MODE_HEIGHTENED_SECURITY
  | MODE_EMERGENCY
  | MODE_LOCKDOWN
  | MODE_RECOVERY
  deriving DecidableEq

/-- The integrated_response_t request structure of response_executor.h. -/
structure integrated_response_t where
  type : response_type_t
  severity : Nat
  target_zones : Nat
  duration : Nat
  auth_level : Nat
  trigger_event : String
  timestamp : Nat
  retry_count : Nat
  timeout_seconds : Nat
  deriving DecidableEq

/-- The execution_report_t result structure of response_executor.h. -/
structure execution_report_t where
  response_id : Nat
  overall_result : Int
  start_time : Nat
  end_time : Nat
  sub_operations : Nat
  success_count : Nat
  failed_count : Nat
  warning_count : Nat
  system_mode : system_mode_t
  status_summary : String
  error_details : String
  deriving DecidableEq

/-- The all-zero report produced by memset on the report buffer. -/
def zero_report : execution_report_t :=
  { response_id := 0, overall_result := 0, start_time := 0, end_time := 0,
    sub_operations := 0, success_count := 0, failed_count := 0,
    warning_count := 0, system_mode := system_mode_t.MODE_NORMAL,
    status_summary := "", error_details := "" }

/-- The subsystem_state singleton of response_executor.c, minus the pthread
mutex object itself (lock operations appear as trace events instead). -/
structure subsystem_state_t where
  initialized : Bool
  emergency_mode : Bool
  current_level : Nat
  last_report : execution_report_t
  deriving DecidableEq

/-- Externally visible events in program order: one constructor per external
controller operation the core calls, plus libc system(cmd) invocations and
the pthread mutex acquire / release pair of a dispatch. -/
inductive event where
  | lockdown_physical_access (zones : Nat) (duration : Nat)
  | isolate_network_segments (zones : Nat) (severity : Nat)
  | stop_non_critical_services (zones : Nat)
  | enhance_surveillance (zones : Nat)
  | unlock_evacuation_routes (zones : Nat)
  | activate_evacuation_lights (zones : Nat)
  | power_down_non_essential (zones : Nat)
  | enable_emergency_comms
  | activate_emergency_backups (severity : Nat)
  | execute_partial_containment
  | execute_recovery_sequence
  | system_call (cmd : String)
  | check_hardware_readiness
  | init_network_subsystem
  | init_access_control
  | lock_acquire
  | lock_release
  deriving DecidableEq

/-- Outcome environment for the external collaborators: each field gives the
return value the corresponding controller call (or system(cmd)) produces.
The repository contains only stub bodies for these (always returning 0 /
true); see stub_controllers. -/
structure controllers_t where
  lockdown_physical_access : Nat → Nat → Int
  isolate_network_segments : Nat → Nat → Int
  stop_non_critical_services : Nat → Int
  enhance_surveillance : Nat → Int
  unlock_evacuation_routes : Nat → Int
  activate_emergency_backups : Nat → Int
  execute_partial_containment : Int
  execute_recovery_sequence : Int
  system : String → Int
  check_hardware_readiness : Bool
  init_network_subsystem : Int
  init_access_control : Int
  pthread_mutex_init : Int

/-- The stub controller bodies shipped in response_executor.c: every fallible
operation succeeds (returns 0 / true). -/
def stub_controllers : controllers_t :=
  { lockdown_physical_access := fun _ _ => 0,
    isolate_network_segments := fun _ _ => 0,
    stop_non_critical_services := fun _ => 0,
    enhance_surveillance := fun _ => 0,
    unlock_evacuation_routes := fun _ => 0,
    activate_emergency_backups := fun _ => 0,
    execute_partial_containment := 0,
    execute_recovery_sequence := 0,
    system := fun _ => 0,
    check_hardware_readiness := true,
    init_network_subsystem := 0,
    init_access_control := 0,
    pthread_mutex_init := 0 }

/-- execute_lockdown_sequence (response_executor.c lines 125-171).
Four steps in order: physical access lock, network isolation, non-critical
service stop, surveillance enhancement.  Each C step is
  total_ops++; if (call == 0) success_ops++; else result = -k;
except step 4 (surveillance), whose failure branch sets no code.
Returns (result, success_ops, total_ops, events). -/
def execute_lockdown_sequence (env : controllers_t)
    (response : integrated_response_t) : Int × Nat × Nat × List event :=
  let result : Int := 0
  let success_ops : Nat := 0
  let total_ops : Nat := 0
  -- 1. physical access lockdown
  let total_ops := total_ops + 1
  let r1 := env.lockdown_physical_access response.target_zones response.duration
  let success_ops := if r1 = 0 then success_ops + 1 else success_ops
  let result := if r1 = 0 then result else -1
  -- 2. network isolation
  let total_ops := total_ops + 1
  let r2 := env.isolate_network_segments response.target_zones response.severity
  let success_ops := if r2 = 0 then success_ops + 1 else success_ops
  let result := if r2 = 0 then result else -2
  -- 3. non-critical service stop
  let total_ops := total_ops + 1
  let r3 := env.stop_non_critical_services response.target_zones
  let success_ops := if r3 = 0 then success_ops + 1 else success_ops
  let result := if r3 = 0 then result else -3
  -- 4. surveillance enhancement (no else branch in the source)
  let total_ops := total_ops + 1
  let r4 := env.enhance_surveillance response.target_zones
  let success_ops := if r4 = 0 then success_ops + 1 else success_ops
  (result, success_ops, total_ops,
   [event.lockdown_physical_access response.target_zones response.duration,
    event.isolate_network_segments response.target_zones response.severity,
    event.stop_non_critical_services response.target_zones,
    event.enhance_surveillance response.target_zones])

/-- Command string "iptables -F CASSIE_EMERGENCY" (flush the chain). -/
def flush_cmd : String := "iptables -F CASSIE_EMERGENCY"

/-- Command string "iptables -N CASSIE_EMERGENCY" (create the chain). -/
def newchain_cmd : String := "iptables -N CASSIE_EMERGENCY"

/-- Command string applying the aggregate rule chain to FORWARD. -/
def activate_chain_cmd : String := "iptables -I FORWARD -j CASSIE_EMERGENCY"

/-- The per-zone isolation rule command built by snprintf for zone i. -/
def network_zone_cmd (i : Nat) : String :=
  "iptables -A CASSIE_EMERGENCY -s 10.0." ++ toString i ++ ".0/24 -j DROP"

/-- Loop body of the zone fan-out in execute_network_isolation: for zone
index i, if bit i of the mask is set, run the per-zone rule command; a
nonzero system() status sets result to -1, otherwise result is unchanged.
The accumulator carries (result, events so far). -/
def isolation_step (env : controllers_t) (zones : Nat)
    (acc : Int × List event) (i : Nat) : Int × List event :=
  if zones.testBit i then
    if env.system (network_zone_cmd i) ≠ 0 then
      (-1, acc.2 ++ [event.system_call (network_zone_cmd i)])
    else
      (acc.1, acc.2 ++ [event.system_call (network_zone_cmd i)])
  else acc

/-- execute_network_isolation (response_executor.c lines 173-204): flush and
recreate the emergency chain (statuses ignored), iterate i = 0..31 adding
one DROP rule per set zone bit, then unconditionally insert the aggregate
chain into FORWARD (status ignored).  Returns (result, events). -/
def execute_network_isolation (env : controllers_t)
    (response : integrated_response_t) : Int × List event :=
  let pre : List event := [event.system_call flush_cmd, event.system_call newchain_cmd]
  let looped := (List.range 32).foldl
    (isolation_step env response.target_zones) ((0 : Int), pre)
  (looped.1, looped.2 ++ [event.system_call activate_chain_cmd])

/-- The fixed critical-service list of execute_service_failover. -/
def critical_services : List String :=
  ["cassie-core", "auth-service", "network-monitor", "database-service"]

/-- The "systemctl stop <service>" command string. -/
def stop_cmd (s : String) : String := "systemctl stop " ++ s

/-- The "systemctl start <service>-backup" command string. -/
def start_cmd (s : String) : String := "systemctl start " ++ s ++ "-backup"

/-- Loop body of execute_service_failover for one service: stop the primary
(failure sets result to -1), then start its backup (failure sets result to
-2); both commands are always issued. -/
def failover_step (env : controllers_t)
    (acc : Int × List event) (s : String) : Int × List event :=
  let result := if env.system (stop_cmd s) = 0 then acc.1 else -1
  let result := if env.system (start_cmd s) = 0 then result else -2
  (result, acc.2 ++ [event.system_call (stop_cmd s), event.system_call (start_cmd s)])

/-- execute_service_failover (response_executor.c lines 206-240): for each
service in the fixed list, stop the primary then start the backup; the
usleep delay has no observable effect in the model.  Returns (result,
events). -/
def execute_service_failover (env : controllers_t)
    (_response : integrated_response_t) : Int × List event :=
  critical_services.foldl (failover_step env) ((0 : Int), [])

/-- execute_evacuation_protocol (response_executor.c lines 242-258): unlock
evacuation routes (nonzero status sets result to -1), then unconditionally
activate evacuation lights, power down non-essential loads, and enable
emergency communications (void calls, no failure path).  Returns (result,
events). -/
def execute_evacuation_protocol (env : controllers_t)
    (response : integrated_response_t) : Int × List event :=
  let result : Int :=
    if env.unlock_evacuation_routes response.target_zones ≠ 0 then -1 else 0
  (result,
   [event.unlock_evacuation_routes response.target_zones,
    event.activate_evacuation_lights response.target_zones,
    event.power_down_non_essential response.target_zones,
    event.enable_emergency_comms])

/-- Status summary written for the lockdown branch. -/
def lockdown_summary : String := "全面封锁序列执行完成"

/-- Status summary written for the network-isolation branch. -/
def isolation_summary : String := "网络隔离执行完成"

/-- Status summary written for the service-failover branch. -/
def failover_summary : String := "服务切换执行完成"

/-- Status summary written for the evacuation branch. -/
def evacuation_summary : String := "紧急疏散协议执行完成"

/-- Status summary written for the backup-activation branch. -/
def backup_summary : String := "紧急备份激活完成"

/-- Status summary written for the partial-containment branch. -/
def containment_summary : String := "局部控制措施执行完成"

/-- Status summary written for the full-recovery branch. -/
def recovery_summary : String := "全面恢复序列执行完成"

/-- Status summary written by the default branch for unknown types. -/
def unknown_type_summary : String := "未知响应类型"

/-- The switch statement of re_execute_integrated (lines 283-315): selects
the sequence handler for the request type and the status summary string.
RESPONSE_COMMS_PRIORITY has no case and falls to the default branch.
Returns (result, status summary, handler events). -/
def dispatch_switch (env : controllers_t) (r : integrated_response_t) :
    Int × String × List event :=
  match r.type with
  | response_type_t.RESPONSE_LOCKDOWN =>
      let h := execute_lockdown_sequence env r
      (h.1, lockdown_summary, h.2.2.2)
  | response_type_t.RESPONSE_NETWORK_ISOLATE =>
      let h := execute_network_isolation env r
      (h.1, isolation_summary, h.2)
  | response_type_t.RESPONSE_SERVICE_FAILOVER =>
      let h := execute_service_failover env r
      (h.1, failover_summary, h.2)
  | response_type_t.RESPONSE_EVACUATION =>
      let h := execute_evacuation_protocol env r
      (h.1, evacuation_summary, h.2)
  | response_type_t.RESPONSE_BACKUP_ACTIVATE =>
      (env.activate_emergency_backups r.severity, backup_summary,
       [event.activate_emergency_backups r.severity])
  | response_type_t.RESPONSE_PARTIAL_CONTAIN =>
      (env.execute_partial_containment, containment_summary,
       [event.execute_partial_containment])
  | response_type_t.RESPONSE_FULL_RECOVERY =>
      (env.execute_recovery_sequence, recovery_summary,
       [event.execute_recovery_sequence])
  | response_type_t.RESPONSE_COMMS_PRIORITY =>
      (-99, unknown_type_summary, [])

/-- The sequence of writes re_execute_integrated performs on the shared
last_report field, in source order: memset to zero (line 270), response_id
(271), start_time (272), status_summary (inside the switch), end_time
(318), overall_result (319), sub_operations (320).  The report is mutated
in place in subsystem_state; readers between two writes see the prefix
applied so far. -/
def dispatch_report_writes (r : integrated_response_t) (t1 t2 : Nat)
    (result : Int) (summary : String) :
    List (execution_report_t → execution_report_t) :=
  [fun _ => zero_report,
   fun rep => { rep with response_id := r.timestamp },
   fun rep => { rep with start_time := t1 },
   fun rep => { rep with status_summary := summary },
   fun rep => { rep with end_time := t2 },
   fun rep => { rep with overall_result := result },
   fun rep => { rep with sub_operations := 4 }]

/-- The shared report after the first k in-place writes of a dispatch have
been applied to the previously published report. -/
def report_after_writes (prev : execution_report_t)
    (ws : List (execution_report_t → execution_report_t)) (k : Nat) :
    execution_report_t :=
  (ws.take k).foldl (fun rep w => w rep) prev

/-- re_execute_integrated (response_executor.c lines 262-326).  A null
request or uninitialized state returns -1 before the lock is taken and
before the report is touched.  Otherwise the mutex is held for the whole
dispatch; the shared report is overwritten in place by the write sequence
dispatch_report_writes.  t1 and t2 are the two time(NULL) readings.
Returns (result, new state, events). -/
def re_execute_integrated (env : controllers_t) (t1 t2 : Nat)
    (st : subsystem_state_t) (response : Option integrated_response_t) :
    Int × subsystem_state_t × List event :=
  match response with
  | none => (-1, st, [])
  | some r =>
    if st.initialized = false then (-1, st, [])
    else
      let sw := dispatch_switch env r
      let report := report_after_writes st.last_report
        (dispatch_report_writes r t1 t2 sw.1 sw.2.1) 7
      (sw.1, { st with last_report := report },
       event.lock_acquire :: sw.2.2 ++ [event.lock_release])

/-- The fixed trigger description of the emergency request (line 340). -/
def emergency_trigger_desc : String := "手动紧急触发"

/-- re_emergency_sequence (response_executor.c lines 328-348): immediately
sets emergency_mode and current_level, then builds the maximal-severity
lockdown request and hands it to a detached thread that will call
re_execute_integrated on it.  now is the time(NULL) reading.  Returns the
mutated state and the request scheduled for asynchronous dispatch. -/
def re_emergency_sequence (now : Nat) (emergency_level : Nat)
    (st : subsystem_state_t) : subsystem_state_t × integrated_response_t :=
  let st := { st with emergency_mode := true, current_level := emergency_level }
  let emergency_response : integrated_response_t :=
    { type := response_type_t.RESPONSE_LOCKDOWN,
      severity := 10,
      target_zones := 0xFFFFFFFF,
      duration := 3600,
      auth_level := 5,
      trigger_event := emergency_trigger_desc,
      timestamp := now,
      retry_count := 0,
      timeout_seconds := 0 }
  (st, emergency_response)

/-- re_init_integrated (response_executor.c lines 350-375): an already
initialized state returns 0 at once; otherwise the mutex is created and
the hardware, network and access-control readiness checks run in order,
each failure returning its own code with the state left uninitialized.
Returns (result, new state, events). -/
def re_init_integrated (env : controllers_t) (st : subsystem_state_t) :
    Int × subsystem_state_t × List event :=
  if st.initialized then (0, st, [])
  else if env.pthread_mutex_init ≠ 0 then (-1, st, [])
  else if env.check_hardware_readiness = false then
    (-2, st, [event.check_hardware_readiness])
  else if env.init_network_subsystem ≠ 0 then
    (-3, st, [event.check_hardware_readiness, event.init_network_subsystem])
  else if env.init_access_control ≠ 0 then
    (-4, st, [event.check_hardware_readiness, event.init_network_subsystem,
              event.init_access_control])
  else
    (0, { st with initialized := true, emergency_mode := false, current_level := 0 },
     [event.check_hardware_readiness, event.init_network_subsystem,
      event.init_access_control])

/-- re_get_last_report (response_executor.c lines 377-379): returns the
shared report directly, performing no lock operation.  Returns (observed
report, events). -/
def re_get_last_report (st : subsystem_state_t) :
    execution_report_t × List event :=
  (st.last_report, [])

/-- Refinement comparison definition following the specification's words
(first-failure-wins): the aggregate code of a lockdown run would be the
distinct negative code of the first step that failed, 0 when none fail. -/
def spec_lockdown_first_failure_code (env : controllers_t)
    (r : integrated_response_t) : Int :=
  if env.lockdown_physical_access r.target_zones r.duration ≠ 0 then -1
  else if env.isolate_network_segments r.target_zones r.severity ≠ 0 then -2
  else if env.stop_non_critical_services r.target_zones ≠ 0 then -3
  else if env.enhance_surveillance r.target_zones ≠ 0 then -4
  else 0

/-- What the lockdown handler actually computes: the code of the last
failing step among the three failure-tracked steps (surveillance, step 4,
has no failure branch), 0 when none of those fail. -/
def lockdown_last_failure_code (env : controllers_t)
    (r : integrated_response_t) : Int :=
  if env.stop_non_critical_services r.target_zones = 0 then
    if env.isolate_network_segments r.target_zones r.severity = 0 then
      if env.lockdown_physical_access r.target_zones r.duration = 0 then 0
      else -1
    else -2
  else -3

/-- The sequence of failure codes a service-failover run records, in
program order: -1 for each failing primary stop, -2 for each failing
backup start. -/
def failover_outcome_codes (env : controllers_t) : List Int :=
  critical_services.foldr
    (fun s acc =>
      (if env.system (stop_cmd s) = 0 then [] else [(-1 : Int)]) ++
      (if env.system (start_cmd s) = 0 then [] else [(-2 : Int)]) ++ acc) []

/-- What the failover handler actually returns: the last recorded failure
code, 0 when no step fails. -/
def failover_last_failure_code (env : controllers_t) : Int :=
  (failover_outcome_codes env).getLast?.getD 0

/-- Number of set bits among bit positions 0..31 of a zone mask. -/
def popcount32 (z : Nat) : Nat :=
  (List.range 32).countP (fun i => z.testBit i)

/-- Shared prefix of every per-zone isolation rule command. -/
def zone_rule_pfx : String := "iptables -A CASSIE_EMERGENCY -s"

/-- Recognizes the per-zone isolation rule invocations in an event trace. -/
def is_zone_isolation_call : event → Bool
  | event.system_call cmd => zone_rule_pfx.data.isPrefixOf cmd.data
  | _ => false

/-- Recognizes the aggregate chain-activation invocation in a trace. -/
def is_chain_activation_call (e : event) : Bool :=
  decide (e = event.system_call activate_chain_cmd)

/-- A concrete lockdown request used for witnesses and counterexamples. -/
def sample_request : integrated_response_t :=
  { type := response_type_t.RESPONSE_LOCKDOWN, severity := 5,
    target_zones := 3, duration := 600, auth_level := 3,
    trigger_event := "drill", timestamp := 42, retry_count := 0,
    timeout_seconds := 0 }

/-- A concrete network-isolation request with zone bits 0, 5 and 9 set. -/
def iso_request : integrated_response_t :=
  { sample_request with
    type := response_type_t.RESPONSE_NETWORK_ISOLATE
    target_zones := 545 }

/-- A concrete request of the RESPONSE_COMMS_PRIORITY type. -/
def comms_request : integrated_response_t :=
  { sample_request with type := response_type_t.RESPONSE_COMMS_PRIORITY }

/-- A concrete initialized subsystem state with a zero last report. -/
def ready_state : subsystem_state_t :=
  { initialized := true, emergency_mode := false, current_level := 0,
    last_report := zero_report }

/-- A concrete uninitialized subsystem state. -/
def fresh_state : subsystem_state_t :=
  { initialized := false, emergency_mode := false, current_level := 0,
    last_report := zero_report }

/-- A concrete previously published complete report. -/
def prev_report : execution_report_t :=
  { zero_report with
    response_id := 7
    sub_operations := 4
    status_summary := lockdown_summary }

/-- A concrete initialized state carrying prev_report. -/
def ready_state_prev : subsystem_state_t :=
  { ready_state with last_report := prev_report }

/-- An environment in which both the physical-access lock (step 1) and the
network isolation (step 2) of the lockdown sequence fail. -/
def env_fail_steps_12 : controllers_t :=
  { stub_controllers with
      lockdown_physical_access := fun _ _ => 1,
      isolate_network_segments := fun _ _ => 1 }

/-- An environment in which only the physical-access lock fails. -/
def env_fail_access : controllers_t :=
  { stub_controllers with lockdown_physical_access := fun _ _ => 1 }

/-- The report-write sequence of a concrete all-success lockdown dispatch,
used by the report-observability counterexample. -/
def c3_writes : List (execution_report_t → execution_report_t) :=
  dispatch_report_writes sample_request 10 11
    (dispatch_switch stub_controllers sample_request).1
    (dispatch_switch stub_controllers sample_request).2.1

/-- The zone fan-out fold appends exactly one per-zone system call for each
set bit of the mask, in index order, independently of the outcomes. -/
theorem isolation_foldl_trace (env : controllers_t) (z : Nat) :
    ∀ (l : List Nat) (r : Int) (tr : List event),
    (l.foldl (isolation_step env z) (r, tr)).2 =
      tr ++ (l.filter (fun i => z.testBit i)).map
        (fun i => event.system_call (network_zone_cmd i)) := by
  intro l
  induction l with
  | nil => intro r tr; simp
  | cons i rest ih =>
    intro r tr
    by_cases hb : z.testBit i
    · by_cases hs : env.system (network_zone_cmd i) = 0
      · simp [List.foldl_cons, isolation_step, hb, hs, ih]
      · simp [List.foldl_cons, isolation_step, hb, hs, ih]
    · simp [List.foldl_cons, isolation_step, hb, ih]

/-- The event trace of execute_network_isolation: the two chain-setup calls,
one per-zone rule call per set bit in index order, then the aggregate
activation call. -/
theorem isolation_trace_shape (env : controllers_t)
    (r : integrated_response_t) :
    (execute_network_isolation env r).2 =
      ([event.system_call flush_cmd, event.system_call newchain_cmd] ++
        ((List.range 32).filter (fun i => r.target_zones.testBit i)).map
          (fun i => event.system_call (network_zone_cmd i))) ++
      [event.system_call activate_chain_cmd] := by
  simp [execute_network_isolation, isolation_foldl_trace]

/-- Every per-zone rule command for a zone index below 32 is recognized by
is_zone_isolation_call. -/
theorem zone_call_recognized :
    ∀ i ∈ List.range 32,
      is_zone_isolation_call (event.system_call (network_zone_cmd i)) = true := by
  decide

/-- No per-zone rule command for a zone index below 32 is the aggregate
chain-activation command. -/
theorem zone_call_not_activation :
    ∀ i ∈ List.range 32,
      ¬ (is_chain_activation_call (event.system_call (network_zone_cmd i)) = true) := by
  decide

/-- C5: for every NetworkIsolate dispatch, the handler issues exactly one
per-zone isolation call for each set bit of the 32-bit targetZones mask
(in particular exactly 3 such calls for the mask with bits 0, 5 and 9 set)
plus exactly one aggregate activation call, and the aggregate activation
call is issued regardless of the individual zone outcomes (the counts hold
for every outcome environment env). -/
theorem C5_network_fanout (env : controllers_t) (r : integrated_response_t) :
    ((execute_network_isolation env r).2.countP is_zone_isolation_call
       = popcount32 r.target_zones) ∧
    ((execute_network_isolation env r).2.countP is_chain_activation_call = 1) ∧
    ((execute_network_isolation env iso_request).2.countP is_zone_isolation_call
       = 3) := by
  have key : ∀ (r2 : integrated_response_t),
      ((execute_network_isolation env r2).2.countP is_zone_isolation_call
        = popcount32 r2.target_zones) ∧
      ((execute_network_isolation env r2).2.countP is_chain_activation_call
        = 1) := by
    intro r2
    rw [isolation_trace_shape, List.countP_append, List.countP_append,
        List.countP_append, List.countP_append, List.countP_map,
        List.countP_map]
    constructor
    · have h1 : List.countP is_zone_isolation_call
          [event.system_call flush_cmd, event.system_call newchain_cmd] = 0 := by
        decide
      have h3 : List.countP is_zone_isolation_call
          [event.system_call activate_chain_cmd] = 0 := by decide
      have h2 : List.countP
          (is_zone_isolation_call ∘ fun i => event.system_call (network_zone_cmd i))
          ((List.range 32).filter (fun i => r2.target_zones.testBit i))
          = ((List.range 32).filter (fun i => r2.target_zones.testBit i)).length := by
        apply List.countP_eq_length.mpr
        intro i hi
        exact zone_call_recognized i (List.mem_of_mem_filter hi)
      rw [h1, h2, h3, popcount32, List.countP_eq_length_filter]
      simp
    · have h1 : List.countP is_chain_activation_call
          [event.system_call flush_cmd, event.system_call newchain_cmd] = 0 := by
        decide
      have h3 : List.countP is_chain_activation_call
          [event.system_call activate_chain_cmd] = 1 := by decide
      have h2 : List.countP
          (is_chain_activation_call ∘ fun i => event.system_call (network_zone_cmd i))
          ((List.range 32).filter (fun i => r2.target_zones.testBit i)) = 0 := by
        rw [List.countP_eq_zero]
        intro i hi
        exact zone_call_not_activation i (List.mem_of_mem_filter hi)
      rw [h1, h2, h3]
  exact ⟨(key r).1, (key r).2, by rw [(key iso_request).1]; decide⟩

/-- C1 counterexample: in the run where both step 1 (physical access) and
step 2 (network isolation) of the lockdown sequence fail and the rest
succeed, the handler returns -2, the code of the LAST failing step, while
the code of the FIRST failing step is -1 — so the first-failure-wins claim
is false on this concrete input. -/
theorem C1_counterexample :
    (execute_lockdown_sequence env_fail_steps_12 sample_request).1 ≠
      spec_lockdown_first_failure_code env_fail_steps_12 sample_request ∧
    (execute_lockdown_sequence env_fail_steps_12 sample_request).1 = -2 ∧
    spec_lockdown_first_failure_code env_fail_steps_12 sample_request = -1 := by
  refine ⟨by decide, by decide, by decide⟩

set_option maxHeartbeats 1000000 in
/-- C1 amended: for every combination of step outcomes, the aggregate code
of the Lockdown handler is the distinct negative code of the LAST step
that failed among its three failure-tracked steps (a step-4 surveillance
failure sets no code), and the ServiceFailover handler returns the code of
the LAST failing action (-1 for a primary stop, -2 for a backup start,
the same pair for every service); each handler returns 0 when no tracked
step fails. -/
theorem C1_last_failure_wins :
    (∀ (env : controllers_t) (r : integrated_response_t),
       (execute_lockdown_sequence env r).1 = lockdown_last_failure_code env r) ∧
    (∀ (env : controllers_t) (r : integrated_response_t),
       (execute_service_failover env r).1 = failover_last_failure_code env) := by
  constructor
  · intro env r
    simp only [execute_lockdown_sequence, lockdown_last_failure_code]
  · intro env r
    simp only [execute_service_failover, critical_services, failover_step,
      failover_last_failure_code, failover_outcome_codes, List.foldl_cons,
      List.foldl_nil, List.foldr_cons, List.foldr_nil]
    split_ifs <;> rfl

/-- C2 counterexample: a Lockdown dispatch on an initialized system with
all four controllers succeeding publishes a report with successCount = 0,
not 4, although the handler's local tally is 4 — the claim that the
published successCount equals the number of succeeded sub-steps is false
on this concrete input. -/
theorem C2_counterexample :
    ¬ ((re_execute_integrated stub_controllers 10 11 ready_state
          (some sample_request)).2.1.last_report.success_count = 4) ∧
    (re_execute_integrated stub_controllers 10 11 ready_state
       (some sample_request)).2.1.last_report.success_count = 0 ∧
    (execute_lockdown_sequence stub_controllers sample_request).2.1 = 4 := by
  refine ⟨by decide, by decide, by decide⟩

/-- C2 amended: after a Lockdown dispatch on an initialized system, the
overallResult behaves as claimed (0 with all four controllers succeeding;
-1, the access step's failure code, with only the access-lock controller
failing) and the handler's local tally equals the number of succeeded
sub-steps (4 resp. 3), but the published report's successCount is 0 in
both cases because the tally is never copied into the report. -/
theorem C2_lockdown_report (env : controllers_t) (t1 t2 : Nat)
    (st : subsystem_state_t) (r : integrated_response_t)
    (hinit : st.initialized = true)
    (htype : r.type = response_type_t.RESPONSE_LOCKDOWN) :
    ((env.lockdown_physical_access r.target_zones r.duration = 0 ∧
      env.isolate_network_segments r.target_zones r.severity = 0 ∧
      env.stop_non_critical_services r.target_zones = 0 ∧
      env.enhance_surveillance r.target_zones = 0) →
      ((re_execute_integrated env t1 t2 st (some r)).1 = 0 ∧
       (execute_lockdown_sequence env r).2.1 = 4 ∧
       (re_execute_integrated env t1 t2 st
          (some r)).2.1.last_report.overall_result = 0 ∧
       (re_execute_integrated env t1 t2 st
          (some r)).2.1.last_report.success_count = 0)) ∧
    ((env.lockdown_physical_access r.target_zones r.duration ≠ 0 ∧
      env.isolate_network_segments r.target_zones r.severity = 0 ∧
      env.stop_non_critical_services r.target_zones = 0 ∧
      env.enhance_surveillance r.target_zones = 0) →
      ((re_execute_integrated env t1 t2 st (some r)).1 = -1 ∧
       (execute_lockdown_sequence env r).2.1 = 3 ∧
       (re_execute_integrated env t1 t2 st
          (some r)).2.1.last_report.overall_result = -1 ∧
       (re_execute_integrated env t1 t2 st
          (some r)).2.1.last_report.success_count = 0)) := by
  constructor
  · rintro ⟨h1, h2, h3, h4⟩
    simp [re_execute_integrated, dispatch_switch, execute_lockdown_sequence,
      report_after_writes, dispatch_report_writes, zero_report, hinit, htype,
      h1, h2, h3, h4]
  · rintro ⟨h1, h2, h3, h4⟩
    simp [re_execute_integrated, dispatch_switch, execute_lockdown_sequence,
      report_after_writes, dispatch_report_writes, zero_report, hinit, htype,
      h1, h2, h3, h4]

/-- C2 witness: the amended statement applied to the concrete environment
where only the access-lock controller fails, on a concrete initialized
state. -/
theorem C2_lockdown_report_witness :
    (re_execute_integrated env_fail_access 10 11 ready_state
       (some sample_request)).1 = -1 ∧
    (execute_lockdown_sequence env_fail_access sample_request).2.1 = 3 ∧
    (re_execute_integrated env_fail_access 10 11 ready_state
       (some sample_request)).2.1.last_report.overall_result = -1 ∧
    (re_execute_integrated env_fail_access 10 11 ready_state
       (some sample_request)).2.1.last_report.success_count = 0 :=
  (C2_lockdown_report env_fail_access 10 11 ready_state sample_request
    rfl rfl).2 ⟨by decide, by decide, by decide, by decide⟩

/-- The last element of a nonempty list ending in a singleton append. -/
theorem getLast?_cons_concat {α : Type} (a b : α) (l : List α) :
    (a :: (l ++ [b])).getLast? = some b := by
  rw [← List.cons_append]
  rw [List.getLast?_concat]

/-- C3 counterexample: formalizing observable report states as the prefixes
of the in-place write sequence of a dispatch, a concrete all-success
lockdown dispatch over a previously published complete report admits an
intermediate observation (right after the memset, k = 1) that is neither
the previous complete report nor the next complete report — so the claim
that a reader only ever observes one of the two complete reports is
false. -/
theorem C3_counterexample :
    ¬ (∀ k, k ≤ 7 →
        report_after_writes prev_report c3_writes k = prev_report ∨
        report_after_writes prev_report c3_writes k =
          report_after_writes prev_report c3_writes 7) := by
  decide

/-- C3 amended: the dispatch builds the report by overwriting the shared
last_report in place (the published report is exactly the fold of the
in-place write sequence over the previously published report), the writer
holds the dispatch lock for the whole sequence (the dispatch trace starts
with the lock acquire and ends with the lock release), but getLastReport
performs no lock operation at all, so a concurrent reader is not excluded
from observing intermediate write states. -/
theorem C3_in_place_publication (env : controllers_t) (t1 t2 : Nat)
    (st : subsystem_state_t) (r : integrated_response_t)
    (hinit : st.initialized = true) :
    ((re_execute_integrated env t1 t2 st (some r)).2.1.last_report =
      report_after_writes st.last_report
        (dispatch_report_writes r t1 t2 (dispatch_switch env r).1
          (dispatch_switch env r).2.1) 7) ∧
    ((re_execute_integrated env t1 t2 st (some r)).2.2.head? =
      some event.lock_acquire) ∧
    ((re_execute_integrated env t1 t2 st (some r)).2.2.getLast? =
      some event.lock_release) ∧
    ((re_get_last_report st).2 = []) := by
  refine ⟨?_, ?_, ?_, rfl⟩
  · simp [re_execute_integrated, hinit]
  · simp [re_execute_integrated, hinit]
  · simp only [re_execute_integrated, hinit, Bool.true_eq_false, if_false]
    exact getLast?_cons_concat _ _ _

/-- C3 witness: the amended statement applied to a concrete all-success
lockdown dispatch on a concrete initialized state. -/
theorem C3_in_place_publication_witness :
    ((re_execute_integrated stub_controllers 10 11 ready_state_prev
        (some sample_request)).2.1.last_report =
      report_after_writes ready_state_prev.last_report
        (dispatch_report_writes sample_request 10 11
          (dispatch_switch stub_controllers sample_request).1
          (dispatch_switch stub_controllers sample_request).2.1) 7) ∧
    ((re_execute_integrated stub_controllers 10 11 ready_state_prev
        (some sample_request)).2.2.head? = some event.lock_acquire) ∧
    ((re_execute_integrated stub_controllers 10 11 ready_state_prev
        (some sample_request)).2.2.getLast? = some event.lock_release) ∧
    ((re_get_last_report ready_state_prev).2 = []) :=
  C3_in_place_publication stub_controllers 10 11 ready_state_prev
    sample_request rfl

/-- C4: a dispatch with an absent request or on an uninitialized state
returns -1 immediately, performs no event at all (in particular takes no
lock), and leaves the whole state, the last report included, unchanged. -/
theorem C4_uninitialized_dispatch (env : controllers_t) (t1 t2 : Nat)
    (st : subsystem_state_t) (resp : Option integrated_response_t)
    (h : resp = none ∨ st.initialized = false) :
    re_execute_integrated env t1 t2 st resp = (-1, st, []) := by
  rcases h with h | h
  · subst h; rfl
  · cases resp with
    | none => rfl
    | some r => simp [re_execute_integrated, h]

/-- C4 witness: the theorem applied to a concrete uninitialized state and a
concrete request. -/
theorem C4_uninitialized_dispatch_witness :
    ((some sample_request) = (none : Option integrated_response_t) ∨
      fresh_state.initialized = false) ∧
    re_execute_integrated stub_controllers 0 0 fresh_state
      (some sample_request) = (-1, fresh_state, []) :=
  ⟨Or.inr rfl,
   C4_uninitialized_dispatch stub_controllers 0 0 fresh_state
     (some sample_request) (Or.inr rfl)⟩

/-- C6: for every level, triggerEmergency immediately sets
emergencyMode = true and currentLevel = level, leaves the rest of the
state untouched, and the request it constructs and hands to the detached
dispatch thread is a Lockdown request with severity 10, all 32 zones
(0xFFFFFFFF), duration 3600 seconds, auth level 5, the fixed trigger
description, and the current timestamp. -/
theorem C6_emergency_trigger (now level : Nat) (st : subsystem_state_t) :
    (re_emergency_sequence now level st).1.emergency_mode = true ∧
    (re_emergency_sequence now level st).1.current_level = level ∧
    (re_emergency_sequence now level st).1.initialized = st.initialized ∧
    (re_emergency_sequence now level st).1.last_report = st.last_report ∧
    (re_emergency_sequence now level st).2 =
      { type := response_type_t.RESPONSE_LOCKDOWN, severity := 10,
        target_zones := 0xFFFFFFFF, duration := 3600, auth_level := 5,
        trigger_event := emergency_trigger_desc, timestamp := now,
        retry_count := 0, timeout_seconds := 0 } :=
  ⟨rfl, rfl, rfl, rfl, rfl⟩

/-- C7: for every Evacuation run, the handler performs exactly the four
steps in order — unlock evacuation routes, activate evacuation lighting,
power down non-essential loads, enable emergency communications — with the
last three issued unconditionally, and the result is 0 iff the unlock step
succeeded. -/
theorem C7_evacuation_protocol (env : controllers_t)
    (r : integrated_response_t) :
    ((execute_evacuation_protocol env r).2 =
      [event.unlock_evacuation_routes r.target_zones,
       event.activate_evacuation_lights r.target_zones,
       event.power_down_non_essential r.target_zones,
       event.enable_emergency_comms]) ∧
    ((execute_evacuation_protocol env r).1 = 0 ↔
      env.unlock_evacuation_routes r.target_zones = 0) := by
  constructor
  · rfl
  · simp only [execute_evacuation_protocol]
    by_cases h : env.unlock_evacuation_routes r.target_zones = 0 <;> simp [h]

/-- C8: init is idempotent — on an already initialized state it returns 0
immediately, performs no readiness-check event, and leaves the state
(flags and report) unchanged. -/
theorem C8_init_idempotent (env : controllers_t) (st : subsystem_state_t)
    (h : st.initialized = true) :
    re_init_integrated env st = (0, st, []) := by
  simp [re_init_integrated, h]

/-- C8 witness: the theorem applied to a concrete initialized state. -/
theorem C8_init_idempotent_witness :
    ready_state.initialized = true ∧
    re_init_integrated stub_controllers ready_state = (0, ready_state, []) :=
  ⟨rfl, C8_init_idempotent stub_controllers ready_state rfl⟩

/-- C9: dispatching a request of the declared enum value
RESPONSE_COMMS_PRIORITY on an initialized system falls into the default
branch of the dispatcher switch: it returns the critical-failure code -99
and publishes the unknown-response-type status summary, exactly as an
unrecognized value would. -/
theorem C9_comms_priority_unhandled (env : controllers_t) (t1 t2 : Nat)
    (st : subsystem_state_t) (r : integrated_response_t)
    (hinit : st.initialized = true)
    (htype : r.type = response_type_t.RESPONSE_COMMS_PRIORITY) :
    ((re_execute_integrated env t1 t2 st (some r)).1 = -99) ∧
    ((re_execute_integrated env t1 t2 st
        (some r)).2.1.last_report.overall_result = -99) ∧
    ((re_execute_integrated env t1 t2 st
        (some r)).2.1.last_report.status_summary = unknown_type_summary) := by
  simp [re_execute_integrated, dispatch_switch, report_after_writes,
    dispatch_report_writes, hinit, htype]

/-- C9 witness: the theorem applied to a concrete RESPONSE_COMMS_PRIORITY
request on a concrete initialized state. -/
theorem C9_comms_priority_unhandled_witness :
    ((re_execute_integrated stub_controllers 10 11 ready_state
        (some comms_request)).1 = -99) ∧
    ((re_execute_integrated stub_controllers 10 11 ready_state
        (some comms_request)).2.1.last_report.overall_result = -99) ∧
    ((re_execute_integrated stub_controllers 10 11 ready_state
        (some comms_request)).2.1.last_report.status_summary =
      unknown_type_summary) :=
  C9_comms_priority_unhandled stub_controllers 10 11 ready_state
    comms_request rfl rfl

/-- C10: for every dispatch on an initialized system with a present
request, whatever the request type and the step outcomes, the published
report has subOperations = 4 and successCount = failedCount =
warningCount = 0: the counts stay at their memset zeros because the
handlers' local tallies are never copied into the report, and
subOperations is assigned the constant 4. -/
theorem C10_report_counts_constant (env : controllers_t) (t1 t2 : Nat)
    (st : subsystem_state_t) (r : integrated_response_t)
    (hinit : st.initialized = true) :
    ((re_execute_integrated env t1 t2 st
        (some r)).2.1.last_report.sub_operations = 4) ∧
    ((re_execute_integrated env t1 t2 st
        (some r)).2.1.last_report.success_count = 0) ∧
    ((re_execute_integrated env t1 t2 st
        (some r)).2.1.last_report.failed_count = 0) ∧
    ((re_execute_integrated env t1 t2 st
        (some r)).2.1.last_report.warning_count = 0) := by
  simp [re_execute_integrated, report_after_writes, dispatch_report_writes,
    zero_report, hinit]

/-- C10 witness: the theorem applied to a concrete lockdown request on a
concrete initialized state. -/
theorem C10_report_counts_constant_witness :
    ((re_execute_integrated stub_controllers 10 11 ready_state
        (some sample_request)).2.1.last_report.sub_operations = 4) ∧
    ((re_execute_integrated stub_controllers 10 11 ready_state
        (some sample_request)).2.1.last_report.success_count = 0) ∧
    ((re_execute_integrated stub_controllers 10 11 ready_state
        (some sample_request)).2.1.last_report.failed_count = 0) ∧
    ((re_execute_integrated stub_controllers 10 11 ready_state
        (some sample_request)).2.1.last_report.warning_count = 0) :=
  C10_report_counts_constant stub_controllers 10 11 ready_state
    sample_request rfl

end ResponseExecutor
